import Mathlib

/-!
Verification of the booking ↔ Google Calendar synchronization engine of the
Toca Aqui backend (TypeScript sources: `BookingSyncService`,
`GoogleCalendarService`, `CalendarUtilsService`, `dateUtils`).

The TypeScript code is shallowly embedded: instants are modelled as integer
milliseconds since the epoch (`Date.getTime()`), numeric JavaScript arithmetic
on counts and durations as exact integer/rational arithmetic, string event
ids as `String`, nullable fields as `Option`, and the external Google
Calendar API as an explicit environment (`CalendarEnv`) recording the
outcome each API call would have.  Database writes of the booking sync
fields (`updateBookingSyncData`) are modelled as explicit `SyncWrite`
records applied to a `Booking` value in program order.
-/

namespace TocaAqui

/-- Google Calendar event identifier (an opaque string in the code). -/
abbrev EventId := String

/-- The `BookingStatus` enum of `BookingModel` (PENDENTE, EM_NEGOCIACAO, ACEITO,
REJEITADO, CANCELADO, CONCLUIDO). -/
inductive BookingStatus where
  | pendente
  | em_negociacao
  | aceito
  | rejeitado
  | cancelado
  | concluido
deriving Repr, DecidableEq

/-- The sync-relevant projection of a booking row, with its participant
linkage (`banda.usuario.id`, `estabelecimento.usuario.id`).  Instants are
milliseconds since the epoch; `duracao_estimada` is in minutes. -/
structure Booking where
  id : Nat
  status : BookingStatus
  data_show : Int
  duracao_estimada : Int
  google_calendar_event_id : Option EventId
  google_calendar_synced : Bool
  last_sync_at : Option Int
  data_atualizacao : Int
  banda_user : Option Nat
  estab_user : Option Nat
deriving Repr, DecidableEq

/-- Embeds `addMinutes` from `dateUtils`: `new Date(date.getTime() + minutes * 60 * 1000)`. -/
def addMinutes (dateMs : Int) (minutes : Int) : Int :=
  dateMs + minutes * 60 * 1000

/-- The start/end instants of the Google Calendar event payload built by
`BookingSyncService.convertBookingToEvent`.  The other payload fields
(title, description, location, attendees, reminders, colorId, status) do not
affect any claim about instants and are not modelled here. -/
structure EventTimes where
  startMs : Int
  endMs : Int
deriving Repr, DecidableEq

/-- Embeds `BookingSyncService.convertBookingToEvent`, restricted to the event's
start/end instants: `startDate = new Date(booking.data_show)`;
`endDate = addMinutes(startDate, booking.duracao_estimada)`. -/
def convertBookingToEvent (b : Booking) : EventTimes :=
  { startMs := b.data_show
    endMs := addMinutes b.data_show b.duracao_estimada }

/-- Embeds `CalendarUtilsService.checkTimeOverlap`:
`return start1 < end2 && start2 < end1;` (Date comparison is comparison of
their millisecond values). -/
def checkTimeOverlap (start1 end1 start2 end2 : Int) : Bool :=
  decide (start1 < end2) && decide (start2 < end1)

/-- An external calendar event as returned by
`GoogleCalendarService.listEvents` (`id` is always present there: `item.id!`).
Only the fields read by `checkScheduleConflicts` are modelled. -/
structure CalendarEvent where
  id : EventId
  summary : String
  startMs : Int
  endMs : Int
deriving Repr, DecidableEq

/-- The `conflictType` of a conflict record: `'same_time'` or `'overlap'`. -/
inductive ConflictType where
  | overlap
  | same_time
deriving Repr, DecidableEq

/-- One entry of `ConflictCheck.conflicts`. -/
structure ConflictRecord where
  bookingId : Nat
  conflictWith : String
  conflictDate : Int
  conflictType : ConflictType
deriving Repr, DecidableEq

/-- Result of `CalendarUtilsService.checkScheduleConflicts`. -/
structure ConflictCheck where
  hasConflicts : Bool
  conflicts : List ConflictRecord
deriving Repr, DecidableEq

/-- Whether `status ∈ [ACEITO, EM_NEGOCIACAO]` (the status filter used by the
booking queries and by `canSyncBooking`). -/
def isActiveStatus (b : Booking) : Bool :=
  b.status == BookingStatus.aceito || b.status == BookingStatus.em_negociacao

/-- The `Op.or` user-membership condition used by every per-user booking
query: `banda.usuario.id == userId OR estabelecimento.usuario.id == userId`. -/
def belongsToUser (userId : Nat) (b : Booking) : Bool :=
  b.banda_user == some userId || b.estab_user == some userId

/-- Embeds `CalendarUtilsService.getUserBookingsInPeriod`: bookings of the user with
`data_show BETWEEN startDate AND endDate` (inclusive) and an active status. -/
def getUserBookingsInPeriod (userId : Nat) (startMs endMs : Int) (db : List Booking) :
    List Booking :=
  db.filter (fun b =>
    decide (startMs ≤ b.data_show) && decide (b.data_show ≤ endMs) &&
    isActiveStatus b && belongsToUser userId b)

/-- The inner loop body of `checkScheduleConflicts` for one booking: every
listed event whose id differs from the booking's own
`google_calendar_event_id` is tested with `checkTimeOverlap`; a passing pair
yields a record classified `same_time` when both endpoints coincide, else
`overlap`.  `conflictWith` is `event.summary || 'Evento sem título'`: the
summary of a listed event is a string (`item.summary || ''`), falsy exactly
when empty. -/
def bookingConflicts (b : Booking) (events : List CalendarEvent) : List ConflictRecord :=
  let bookingStart := b.data_show
  let bookingEnd := b.data_show + b.duracao_estimada * 60 * 1000
  events.filterMap (fun ev =>
    if b.google_calendar_event_id == some ev.id then
      none
    else if checkTimeOverlap bookingStart bookingEnd ev.startMs ev.endMs then
      some { bookingId := b.id
             conflictWith := if ev.summary == "" then "Evento sem título" else ev.summary
             conflictDate := bookingStart
             conflictType :=
               if bookingStart == ev.startMs && bookingEnd == ev.endMs then
                 ConflictType.same_time
               else ConflictType.overlap }
    else none)

/-- Embeds `CalendarUtilsService.checkScheduleConflicts`.  The outcome of
`GoogleCalendarService.listEvents` is passed in as `listResult`: `none`
covers every case in which the code takes the empty-report early exit —
`success: false` (user not connected / invalid token, i.e. `setupUserAuth`
failed, or the API call threw) or a missing `events` array — as well as the
surrounding catch-all.  `wStart`/`wEnd` are the check window (the caller
defaults them to `[now, now + 30 days]`). -/
def checkScheduleConflicts (userId : Nat) (wStart wEnd : Int)
    (listResult : Option (List CalendarEvent)) (db : List Booking) : ConflictCheck :=
  match listResult with
  | none => { hasConflicts := false, conflicts := [] }
  | some events =>
    let bookings := getUserBookingsInPeriod userId wStart wEnd db
    let conflicts := bookings.flatMap (fun b => bookingConflicts b events)
    { hasConflicts := decide (conflicts.length > 0), conflicts := conflicts }

/-- Outcomes the external Google Calendar API would give to each call issued
during one reconciliation pass.

* `createEvent u = some i` — `GoogleCalendarService.createEvent` for user `u`
  succeeds and the provider returns event id `i` (a successful create always
  carries an id: the code throws, hence returns failure, when
  `response.data.id` is absent);
* `createEvent u = none` — the create fails (not connected, invalid token,
  or the API call threw);
* `updateEvent u e` — success flag of `GoogleCalendarService.updateEvent`
  for user `u` on event `e`; on success the provider returns the updated
  event, whose id is the `e` that was passed (`response.data.id!`);
* `deleteEvent u e` — success flag of `GoogleCalendarService.deleteEvent`. -/
structure CalendarEnv where
  createEvent : Nat → Option EventId
  updateEvent : Nat → EventId → Bool
  deleteEvent : Nat → EventId → Bool

/-- The `(google_calendar_event_id, google_calendar_synced)` pair passed to
one call of `BookingSyncService.updateBookingSyncData`. -/
structure SyncWrite where
  eid : Option EventId
  synced : Bool
deriving Repr, DecidableEq

/-- Embeds `BookingSyncService.updateBookingSyncData`: sets the two written fields
and stamps `last_sync_at = new Date()` (here the instant `now`). -/
def updateBookingSyncData (b : Booking) (w : SyncWrite) (now : Int) : Booking :=
  { b with
    google_calendar_event_id := w.eid
    google_calendar_synced := w.synced
    last_sync_at := some now }

/-- Apply, in program order, the sync-field writes issued during one call.
All writes of one call are stamped with the same call instant `now`. -/
def applyWrites (b : Booking) (ws : List SyncWrite) (now : Int) : Booking :=
  ws.foldl (fun acc w => updateBookingSyncData acc w now) b

/-- Embeds `BookingSyncService.canSyncBooking`:
`[ACEITO, EM_NEGOCIACAO].includes(booking.status)`. -/
def canSyncBooking (b : Booking) : Bool :=
  b.status == BookingStatus.aceito || b.status == BookingStatus.em_negociacao

/-- The `SyncResponse` of one per-target call inside the loop of
`syncBookingToCalendar` (only the fields the caller reads). -/
structure SyncResponse where
  success : Bool
  eventId : Option EventId
deriving Repr, DecidableEq

/-- One iteration of the per-target loop of `syncBookingToCalendar`: when the
(in-memory) booking carries a `google_calendar_event_id`, `updateEvent` is
called on it; otherwise `createEvent` is called. -/
def targetSyncResult (env : CalendarEnv) (b : Booking) (u : Nat) : SyncResponse :=
  match b.google_calendar_event_id with
  | some e =>
    { success := env.updateEvent u e
      eventId := if env.updateEvent u e then some e else none }
  | none =>
    match env.createEvent u with
    | some i => { success := true, eventId := some i }
    | none => { success := false, eventId := none }

/-- The write issued *inside* the loop for one target: only in the create
branch, and only when the create succeeded with an id (the in-memory
`booking.google_calendar_event_id` is never mutated during the loop, so the
`!booking.google_calendar_event_id` guard keeps the value it had on entry). -/
def inLoopWrite (env : CalendarEnv) (b : Booking) (u : Nat) : Option SyncWrite :=
  match b.google_calendar_event_id with
  | some _ => none
  | none =>
    match env.createEvent u with
    | some i => some { eid := some i, synced := true }
    | none => none

/-- The kind of Google Calendar call issued for one target. -/
inductive CalendarCall where
  | createCall (u : Nat)
  | updateCall (u : Nat) (e : EventId)
deriving Repr, DecidableEq

/-- Observable outcome of one `syncBookingToCalendar` call: the returned
`{success, eventId}`, the per-target API calls issued, and the
`updateBookingSyncData` writes issued, in program order. -/
structure SyncCallOutcome where
  success : Bool
  eventId : Option EventId
  calls : List CalendarCall
  writes : List SyncWrite
deriving Repr, DecidableEq

/-- Embeds `BookingSyncService.syncBookingToCalendar` on an already-fetched booking
`b` with connected targets `users` (the result of `getUsersToSync`, in
banda-then-estabelecimento order).  Faithful shape:

* status guard (`canSyncBooking`), then empty-target guard;
* per-target loop: update when `b.google_calendar_event_id` is set, else
  create; each successful create immediately writes `(its id, true)`;
* after the loop, `successfulSyncs = results.filter(success)`; if non-empty,
  one more write `(successfulSyncs[0].eventId || b.google_calendar_event_id,
  true)` and a success result carrying that id; otherwise a failure result
  and no further write. -/
def syncBookingToCalendar (env : CalendarEnv) (b : Booking) (users : List Nat) :
    SyncCallOutcome :=
  if !canSyncBooking b then
    { success := false, eventId := none, calls := [], writes := [] }
  else if users.isEmpty then
    { success := false, eventId := none, calls := [], writes := [] }
  else
    let calls := users.map (fun u =>
      match b.google_calendar_event_id with
      | some e => CalendarCall.updateCall u e
      | none => CalendarCall.createCall u)
    let results := users.map (targetSyncResult env b)
    let loopWrites := users.filterMap (inLoopWrite env b)
    let successfulSyncs := results.filter (fun r => r.success)
    match successfulSyncs.head? with
    | some r0 =>
      let finalId := r0.eventId.orElse (fun _ => b.google_calendar_event_id)
      { success := true
        eventId := finalId
        calls := calls
        writes := loopWrites ++ [{ eid := finalId, synced := true }] }
    | none =>
      { success := false, eventId := none, calls := calls, writes := loopWrites }

/-- Observable outcome of one `removeBookingFromCalendar` call. -/
structure RemoveCallOutcome where
  success : Bool
  writes : List SyncWrite
deriving Repr, DecidableEq

/-- Embeds `BookingSyncService.removeBookingFromCalendar` on an already-fetched
booking `b` with targets `users`.  Faithful shape: fails without any write
when `google_calendar_event_id` is unset; otherwise fans `deleteEvent` out to
every target, then *unconditionally* writes `(null, false)` via
`updateBookingSyncData`, and finally reports success iff at least one delete
succeeded. -/
def removeBookingFromCalendar (env : CalendarEnv) (b : Booking) (users : List Nat) :
    RemoveCallOutcome :=
  match b.google_calendar_event_id with
  | none => { success := false, writes := [] }
  | some e =>
    let results := users.map (fun u => env.deleteEvent u e)
    { success := results.any (fun r => r)
      writes := [{ eid := none, synced := false }] }

/-- Nearest integer to a rational, ties to even — the IEEE-754 default
rounding applied on the scaled mantissa grid. -/
def roundTiesToEven (x : ℚ) : ℤ :=
  if x - ⌊x⌋ < 1 / 2 then ⌊x⌋
  else if (1 : ℚ) / 2 < x - ⌊x⌋ then ⌊x⌋ + 1
  else if ⌊x⌋ % 2 = 0 then ⌊x⌋ else ⌊x⌋ + 1

/-- The IEEE-754 binary64 value nearest to a positive rational `q` (round to
nearest, ties to even): `q` is scaled by a power of two so that a normal
mantissa lies in `[2^52, 2^53)` (`Int.log 2 q` is its binade exponent),
rounded to the nearest integer on that grid, and scaled back; the exponent
is clamped below at `-1022`, which makes the subnormal range exact as well.
Overflow to infinity (magnitudes `≥ 2^1024`) is not modelled; every value
this development applies `fp64` to is at most `100` times a booking
count. -/
def fp64Pos (q : ℚ) : ℚ :=
  let e : ℤ := max (Int.log 2 q) (-1022)
  let scale : ℚ := 2 ^ ((52 : ℤ) - e)
  ((roundTiesToEven (q * scale) : ℤ) : ℚ) / scale

/-- The IEEE-754 binary64 (JavaScript number) value nearest to a rational:
`0` for `0`, sign-symmetric otherwise. -/
def fp64 (q : ℚ) : ℚ :=
  if q = 0 then 0
  else if 0 < q then fp64Pos q
  else -(fp64Pos (-q))

/-- The JavaScript expression `Math.round((synced / all) * 100)` under
binary64 semantics: the two counts are exact doubles (rounded through
`fp64`, the identity below `2^53`), the division and the multiplication
each round their exact result to the nearest double, and `Math.round`
returns the integer nearest to the resulting double, half toward `+∞` —
which is exactly Mathlib's `round`. -/
def jsSyncPercentage (synced all : Nat) : Int :=
  round (fp64 (fp64 (fp64 (synced : ℚ) / fp64 (all : ℚ)) * 100))

/-- Result record of `CalendarUtilsService.getSyncStatistics`.
`unsyncedBookings` is a JavaScript number produced by subtraction, modelled
as `Int`; `syncPercentage` comes from `Math.round`, modelled as `Int`. -/
structure SyncStatistics where
  totalBookings : Nat
  syncedBookings : Nat
  unsyncedBookings : Int
  syncErrors : Nat
  lastSyncAt : Option Int
  syncPercentage : Int
deriving Repr, DecidableEq

/-- Filter of the `allBookings` count query: active status, `data_show >=
now`, booking belongs to the user. -/
def isCountedBooking (userId : Nat) (now : Int) (b : Booking) : Bool :=
  isActiveStatus b && decide (now ≤ b.data_show) && belongsToUser userId b

/-- Filter of the `syncedBookings` count query: the `allBookings` conditions
plus `google_calendar_synced: true` and `google_calendar_event_id != null`. -/
def isSyncedCounted (userId : Nat) (now : Int) (b : Booking) : Bool :=
  b.google_calendar_synced && b.google_calendar_event_id.isSome &&
    isCountedBooking userId now b

/-- Filter of the `errorBookings` count query: `google_calendar_synced:
false` with a non-null `google_calendar_event_id` (attempted but failed),
under the `allBookings` conditions. -/
def isErrorCounted (userId : Nat) (now : Int) (b : Booking) : Bool :=
  !b.google_calendar_synced && b.google_calendar_event_id.isSome &&
    isCountedBooking userId now b

/-- Embeds `CalendarUtilsService.getLastSyncedBooking`, projected to the
`last_sync_at` it exposes: the query selects the user's bookings with
`last_sync_at != null`, orders by `last_sync_at DESC` and takes the first,
i.e. the maximum `last_sync_at`. -/
def lastSyncAtOfUser (userId : Nat) (db : List Booking) : Option Int :=
  (db.filterMap (fun b =>
    if belongsToUser userId b then b.last_sync_at else none)).max?

/-- Embeds `CalendarUtilsService.getSyncStatistics`.  The booking store is passed as
`store : Except Unit (List Booking)`: `Except.error` models any throw out of
the count/find queries, answered by the surrounding catch with the all-zero
record (and no `lastSyncAt` key).  `unsynced = all - synced` is exact `Int`
subtraction (JavaScript subtraction of counts below `2^53` is exact), and
`Math.round((synced / all) * 100)`, guarded by `allBookings > 0 ? … : 0`,
is evaluated with binary64 semantics via `jsSyncPercentage`. -/
def getSyncStatistics (userId : Nat) (now : Int) (store : Except Unit (List Booking)) :
    SyncStatistics :=
  match store with
  | Except.error _ =>
    { totalBookings := 0, syncedBookings := 0, unsyncedBookings := 0
      syncErrors := 0, lastSyncAt := none, syncPercentage := 0 }
  | Except.ok db =>
    let allBookings := db.countP (fun b => isCountedBooking userId now b)
    let syncedBookings := db.countP (fun b => isSyncedCounted userId now b)
    let errorBookings := db.countP (fun b => isErrorCounted userId now b)
    let unsyncedBookings : Int := (allBookings : Int) - (syncedBookings : Int)
    let syncPercentage : Int :=
      if allBookings > 0 then jsSyncPercentage syncedBookings allBookings
      else 0
    { totalBookings := allBookings
      syncedBookings := syncedBookings
      unsyncedBookings := unsyncedBookings
      syncErrors := errorBookings
      lastSyncAt := lastSyncAtOfUser userId db
      syncPercentage := syncPercentage }

/-- Filter of `CalendarUtilsService.getUnsyncedBookings`:
`google_calendar_synced: false`, `google_calendar_event_id: null`, active
status, `data_show >= now`, and user membership. -/
def isUnsyncedBooking (userId : Nat) (now : Int) (b : Booking) : Bool :=
  !b.google_calendar_synced && b.google_calendar_event_id == none &&
    isActiveStatus b && decide (now ≤ b.data_show) && belongsToUser userId b

/-- The `data_atualizacao > last_sync_at` column comparison of
`getModifiedBookings`; a SQL comparison against a NULL `last_sync_at` is not
satisfied. -/
def modifiedAfterSync (b : Booking) : Bool :=
  match b.last_sync_at with
  | some t => decide (b.data_atualizacao > t)
  | none => false

/-- Filter of `CalendarUtilsService.getModifiedBookings`:
`google_calendar_synced: true`, non-null `google_calendar_event_id`, active
status, `data_show >= now`, and (banda-user ∧ modified-after-sync) ∨
(estabelecimento-user ∧ modified-after-sync). -/
def isModifiedBooking (userId : Nat) (now : Int) (b : Booking) : Bool :=
  b.google_calendar_synced && b.google_calendar_event_id.isSome &&
    isActiveStatus b && decide (now ≤ b.data_show) &&
    ((b.banda_user == some userId && modifiedAfterSync b) ||
     (b.estab_user == some userId && modifiedAfterSync b))

/-- Filter of `CalendarUtilsService.getCancelledSyncedBookings`:
`google_calendar_synced: true`, non-null `google_calendar_event_id`,
`status ∈ [CANCELADO, REJEITADO]`, and user membership (no date filter). -/
def isCancelledSyncedBooking (userId : Nat) (b : Booking) : Bool :=
  b.google_calendar_synced && b.google_calendar_event_id.isSome &&
    (b.status == BookingStatus.cancelado || b.status == BookingStatus.rejeitado) &&
    belongsToUser userId b

/-- Embeds `CalendarUtilsService.getCancelledSyncedBookings`. -/
def getCancelledSyncedBookings (userId : Nat) (db : List Booking) : List Booking :=
  db.filter (isCancelledSyncedBooking userId)

/-- The `type` tag of an `intelligentSync` action-log entry. -/
inductive ActionType where
  | createAction
  | updateAction
  | deleteAction
deriving Repr, DecidableEq

/-- One planned entry of the `intelligentSync` action log, identified by its
phase tag and booking id.  The `success`/`message` of each entry come from
the per-booking `syncBookingToCalendar`/`removeBookingFromCalendar` call and
do not influence which entries appear or their order. -/
structure PlannedAction where
  ty : ActionType
  bookingId : Nat
deriving Repr, DecidableEq

/-- The action log of `CalendarUtilsService.intelligentSync`, projected to
`(type, bookingId)`: phase 1 appends a `create` entry per
`getUnsyncedBookings` result, phase 2 an `update` entry per
`getModifiedBookings` result, phase 3 a `delete` entry per
`getCancelledSyncedBookings` result, in that order. -/
def intelligentSyncPlan (userId : Nat) (now : Int) (db : List Booking) :
    List PlannedAction :=
  (db.filter (isUnsyncedBooking userId now)).map
      (fun b => { ty := ActionType.createAction, bookingId := b.id }) ++
  (db.filter (isModifiedBooking userId now)).map
      (fun b => { ty := ActionType.updateAction, bookingId := b.id }) ++
  (getCancelledSyncedBookings userId db).map
      (fun b => { ty := ActionType.deleteAction, bookingId := b.id })

/-- The `recentSyncActivity` sub-check of
`CalendarUtilsService.checkIntegrationHealth`:
`stats.lastSyncAt && (now - stats.lastSyncAt) < 7 days`. -/
def recentSyncActivity (now : Int) (s : SyncStatistics) : Bool :=
  match s.lastSyncAt with
  | some t => decide (now - t < 7 * 24 * 60 * 60 * 1000)
  | none => false

/-- The coverage sub-check of `checkIntegrationHealth`:
`stats.syncPercentage < 80 && stats.totalBookings > 0` flags an issue. -/
def lowSyncCoverage (s : SyncStatistics) : Bool :=
  decide (s.syncPercentage < 80) && decide (s.totalBookings > 0)

/-- Concrete fixture: a cancelled booking that carries an external event id
but has `google_calendar_synced = false` (a failed earlier sync attempt). -/
def cancelledUnsyncedBooking : Booking :=
  { id := 7, status := BookingStatus.cancelado, data_show := 1000
    duracao_estimada := 60, google_calendar_event_id := some "evt-7"
    google_calendar_synced := false, last_sync_at := none
    data_atualizacao := 0, banda_user := some 1, estab_user := none }

/-- Concrete fixture: a cancelled booking that is synced and carries an
external event id. -/
def cancelledSyncedBooking : Booking :=
  { id := 7, status := BookingStatus.cancelado, data_show := 1000
    duracao_estimada := 60, google_calendar_event_id := some "evt-7"
    google_calendar_synced := true, last_sync_at := some 500
    data_atualizacao := 0, banda_user := some 1, estab_user := none }

/-- Concrete fixture: a synced, cancelled booking used for the remove-path
claims. -/
def syncedBookingE3 : Booking :=
  { id := 3, status := BookingStatus.cancelado, data_show := 1000
    duracao_estimada := 90, google_calendar_event_id := some "evt-3"
    google_calendar_synced := true, last_sync_at := some 500
    data_atualizacao := 400, banda_user := some 1, estab_user := some 2 }

/-- Concrete fixture: an accepted booking that was never synced. -/
def unsyncedBookingA : Booking :=
  { id := 5, status := BookingStatus.aceito, data_show := 2000
    duracao_estimada := 120, google_calendar_event_id := none
    google_calendar_synced := false, last_sync_at := none
    data_atualizacao := 0, banda_user := some 1, estab_user := some 2 }

/-- Concrete environment in which every Google Calendar call fails. -/
def allCallsFailEnv : CalendarEnv :=
  { createEvent := fun _ => none
    updateEvent := fun _ _ => false
    deleteEvent := fun _ _ => false }

/-- Concrete environment: the create for user 2 succeeds with id `evt-b`,
the create for any other user fails; updates and deletes succeed. -/
def createEnv2 : CalendarEnv :=
  { createEvent := fun u => if u == 2 then some "evt-b" else none
    updateEvent := fun _ _ => true
    deleteEvent := fun _ _ => true }

/-- Concrete fixture: 40 active, future bookings of user 1, of which the
first 23 are synced — realizing `syncedBookings = 23`,
`totalBookings = 40`. -/
def db23of40 : List Booking :=
  (List.range 40).map (fun k =>
    { id := k, status := BookingStatus.aceito, data_show := 10
      duracao_estimada := 60
      google_calendar_event_id := if k < 23 then some "e" else none
      google_calendar_synced := decide (k < 23)
      last_sync_at := none, data_atualizacao := 0
      banda_user := some 1, estab_user := none })

end TocaAqui

namespace TocaAqui

/-- C4: the conflict-detection overlap test returns true iff
`bookingStart < eventEnd ∧ eventStart < bookingEnd`, and a touching boundary
(`bookingEnd = eventStart` or `eventEnd = bookingStart`) is never a
conflict. -/
theorem checkTimeOverlap_iff_strict (bs be es ee : Int) :
    (checkTimeOverlap bs be es ee = true ↔ bs < ee ∧ es < be) ∧
    checkTimeOverlap bs be be ee = false ∧
    checkTimeOverlap bs be es bs = false := by
  refine ⟨?_, ?_, ?_⟩
  · simp [checkTimeOverlap]
  · simp [checkTimeOverlap]
  · simp [checkTimeOverlap]

/-- C7: the translated event's end instant equals its start instant plus
`duracao_estimada` minutes (exact integer arithmetic, no rounding). -/
theorem convertBookingToEvent_end_eq_start_add_duration (b : Booking) :
    (convertBookingToEvent b).endMs
      = (convertBookingToEvent b).startMs + b.duracao_estimada * 60 * 1000 ∧
    (convertBookingToEvent b).startMs = b.data_show := by
  exact ⟨rfl, rfl⟩

/-- C8: when the account is not connected or the event fetch fails (modelled
as `listResult = none`), `checkScheduleConflicts` returns the empty,
non-conflicting report for every user, window and booking store. -/
theorem checkScheduleConflicts_degrades_silently
    (userId : Nat) (wStart wEnd : Int) (db : List Booking) :
    checkScheduleConflicts userId wStart wEnd none db
      = { hasConflicts := false, conflicts := [] } := by
  rfl

/-- Characterizes `Int.log 2` by its binade: if `2^e ≤ q < 2^(e+1)` then
`Int.log 2 q = e`. -/
theorem intLog2_eq_of (q : ℚ) (e : ℤ) (hq : 0 < q)
    (h1 : (2 : ℚ) ^ e ≤ q) (h2 : q < 2 ^ (e + 1)) : Int.log 2 q = e := by
  have hb : 1 < 2 := one_lt_two
  have hle : e ≤ Int.log 2 q := by
    refine (Int.zpow_le_iff_le_log hb hq).1 ?_
    exact_mod_cast h1
  have hlt : Int.log 2 q < e + 1 := by
    refine (Int.lt_zpow_iff_log_lt hb hq).1 ?_
    exact_mod_cast h2
  omega

/-- Unfolds `fp64` on a positive rational whose binade `e` is known and not
subnormal-clamped. -/
theorem fp64_eval (q : ℚ) (e : ℤ) (hq : 0 < q) (he : -1022 ≤ e)
    (h1 : (2 : ℚ) ^ e ≤ q) (h2 : q < 2 ^ (e + 1)) :
    fp64 q = ((roundTiesToEven (q * 2 ^ (52 - e)) : ℤ) : ℚ) / 2 ^ (52 - e) := by
  have hlog : Int.log 2 q = e := intLog2_eq_of q e hq h1 h2
  unfold fp64 fp64Pos
  rw [if_neg (ne_of_gt hq), if_pos hq, hlog, max_eq_left he]

/-- Evaluates ties-to-even rounding when the value lies strictly below the
midpoint of its floor interval. -/
theorem roundTiesToEven_eq_floor_of (x : ℚ) (n : ℤ) (hn : ⌊x⌋ = n)
    (h : x - (n : ℚ) < 1 / 2) : roundTiesToEven x = n := by
  unfold roundTiesToEven
  rw [hn, if_pos h]

/-- Fully evaluates `fp64` at a concrete positive rational in the
round-down case: `e` is the binade, `s = 2^(52-e)` the scale, `n` the
scaled mantissa floor, and the fractional part lies below `1/2`. -/
theorem fp64_eval_concrete (q : ℚ) (e n : ℤ) (s : ℚ)
    (hq : 0 < q) (he : -1022 ≤ e)
    (h1 : (2 : ℚ) ^ e ≤ q) (h2 : q < 2 ^ (e + 1))
    (hs : (2 : ℚ) ^ (52 - e) = s)
    (hn : (n : ℚ) ≤ q * s) (hn2 : q * s < (n : ℚ) + 1)
    (hfrac : q * s - (n : ℚ) < 1 / 2) :
    fp64 q = (n : ℚ) / s := by
  have hfl : ⌊q * s⌋ = n := Int.floor_eq_iff.2 ⟨hn, hn2⟩
  have h := fp64_eval q e hq he h1 h2
  rw [hs] at h
  rw [h, roundTiesToEven_eq_floor_of (q * s) n hfl hfrac]

/-- The double nearest to the exact count quotient `23/40 = 0.575` lies one
mantissa step below it. -/
theorem fp64_23_div_40 :
    fp64 ((23 : ℚ) / 40) = (5179139571476070 : ℚ) / 9007199254740992 := by
  have h := fp64_eval_concrete ((23 : ℚ) / 40) (-1) 5179139571476070
    (9007199254740992 : ℚ) (by norm_num) (by norm_num) (by norm_num) (by norm_num)
    (by norm_num) (by norm_num) (by norm_num) (by norm_num)
  rw [h]
  norm_num

/-- The binary64 product of the stored quotient with `100`:
`57.49999999999999289…`, strictly below `57.5`. -/
theorem fp64_quotient_times_100 :
    fp64 ((5179139571476070 : ℚ) / 9007199254740992 * 100)
      = (8092405580431359 : ℚ) / 140737488355328 := by
  have h := fp64_eval_concrete ((5179139571476070 : ℚ) / 9007199254740992 * 100) 5
    8092405580431359 (140737488355328 : ℚ) (by norm_num) (by norm_num) (by norm_num)
    (by norm_num) (by norm_num) (by norm_num) (by norm_num) (by norm_num)
  rw [h]
  norm_num

/-- Exact small integers round to themselves. -/
theorem fp64_23 : fp64 (23 : ℚ) = 23 := by
  have h := fp64_eval_concrete (23 : ℚ) 4 6473924464345088 (281474976710656 : ℚ)
    (by norm_num) (by norm_num) (by norm_num) (by norm_num) (by norm_num)
    (by norm_num) (by norm_num) (by norm_num)
  rw [h]
  norm_num

/-- Exact small integers round to themselves. -/
theorem fp64_40 : fp64 (40 : ℚ) = 40 := by
  have h := fp64_eval_concrete (40 : ℚ) 5 5629499534213120 (140737488355328 : ℚ)
    (by norm_num) (by norm_num) (by norm_num) (by norm_num) (by norm_num)
    (by norm_num) (by norm_num) (by norm_num)
  rw [h]
  norm_num

/-- Sanity anchor for the binary64 model: the double nearest to
`23/40 = 0.575` lies strictly below it — the representation gap that makes
the program's `(23/40) * 100` round down to 57. -/
theorem fp64_repr_gap_example : fp64 (23 / 40 : ℚ) < 23 / 40 := by
  rw [fp64_23_div_40]
  norm_num

/-- The binary64 evaluation of `Math.round((23 / 40) * 100)`. -/
theorem jsSyncPercentage_23_40 : jsSyncPercentage 23 40 = 57 := by
  unfold jsSyncPercentage
  have hc23 : ((23 : Nat) : ℚ) = 23 := by norm_num
  have hc40 : ((40 : Nat) : ℚ) = 40 := by norm_num
  rw [hc23, hc40, fp64_23, fp64_40, fp64_23_div_40, fp64_quotient_times_100, round_eq]
  have : ⌊(8092405580431359 : ℚ) / 140737488355328 + 1 / 2⌋ = 57 :=
    Int.floor_eq_iff.2 ⟨by norm_num, by norm_num⟩
  rw [this]

/-- Rounding to the nearest integer (ties to even) of a nonnegative rational
is nonnegative. -/
theorem roundTiesToEven_nonneg (x : ℚ) (hx : 0 ≤ x) : 0 ≤ roundTiesToEven x := by
  have hf : (0 : ℤ) ≤ ⌊x⌋ := Int.floor_nonneg.2 hx
  unfold roundTiesToEven
  split_ifs <;> omega

/-- The binary64 rounding of a nonnegative rational is nonnegative. -/
theorem fp64_nonneg (q : ℚ) (hq : 0 ≤ q) : 0 ≤ fp64 q := by
  unfold fp64
  split_ifs with h0 hpos
  · exact le_refl 0
  · unfold fp64Pos
    have hscale : (0 : ℚ) < 2 ^ ((52 : ℤ) - max (Int.log 2 q) (-1022)) :=
      zpow_pos (by norm_num) _
    refine div_nonneg ?_ (le_of_lt hscale)
    exact_mod_cast roundTiesToEven_nonneg _ (mul_nonneg hq (le_of_lt hscale))
  · exact absurd (lt_of_le_of_ne hq (Ne.symm h0)) hpos

/-- The modelled `Math.round((synced / all) * 100)` is never negative. -/
theorem jsSyncPercentage_nonneg (synced all : Nat) : 0 ≤ jsSyncPercentage synced all := by
  unfold jsSyncPercentage
  have h1 : (0 : ℚ) ≤ fp64 (synced : ℚ) := fp64_nonneg _ (Nat.cast_nonneg synced)
  have h2 : (0 : ℚ) ≤ fp64 (all : ℚ) := fp64_nonneg _ (Nat.cast_nonneg all)
  have h3 : (0 : ℚ) ≤ fp64 (fp64 (synced : ℚ) / fp64 (all : ℚ)) :=
    fp64_nonneg _ (div_nonneg h1 h2)
  have h4 : (0 : ℚ) ≤ fp64 (fp64 (fp64 (synced : ℚ) / fp64 (all : ℚ)) * 100) :=
    fp64_nonneg _ (mul_nonneg h3 (by norm_num))
  rw [round_eq]
  exact Int.floor_nonneg.2 (by linarith)

/-- C6 counterexample: for a user with 40 counted bookings of which 23 are
synced, the program (binary64 arithmetic) returns `syncPercentage = 57`,
while the claim's formula `round(100 * synced / total)` gives `58`: the
double `(23/40) * 100` is `57.49999999999999289…`, strictly below `57.5`. -/
theorem getSyncStatistics_percentage_counterexample :
    (getSyncStatistics 1 0 (Except.ok db23of40)).totalBookings = 40 ∧
    (getSyncStatistics 1 0 (Except.ok db23of40)).syncedBookings = 23 ∧
    (getSyncStatistics 1 0 (Except.ok db23of40)).syncPercentage = 57 ∧
    round ((100 * ((getSyncStatistics 1 0 (Except.ok db23of40)).syncedBookings : ℚ))
        / ((getSyncStatistics 1 0 (Except.ok db23of40)).totalBookings : ℚ)) = 58 := by
  have htot : db23of40.countP (fun b => isCountedBooking 1 0 b) = 40 := by decide
  have hsyn : db23of40.countP (fun b => isSyncedCounted 1 0 b) = 23 := by decide
  refine ⟨?_, ?_, ?_, ?_⟩
  · simp only [getSyncStatistics]
    exact htot
  · simp only [getSyncStatistics]
    exact hsyn
  · simp only [getSyncStatistics, htot, hsyn]
    norm_num [jsSyncPercentage_23_40]
  · simp only [getSyncStatistics, htot, hsyn]
    rw [round_eq]
    have : ⌊(100 * ((23 : Nat) : ℚ)) / ((40 : Nat) : ℚ) + 1 / 2⌋ = 58 :=
      Int.floor_eq_iff.2 ⟨by norm_num, by norm_num⟩
    exact this

/-- C6 amended: the statistics satisfy `unsynced = total - synced` (hence
`synced + unsynced = total`), and `syncPercentage` is
`Math.round((synced / total) * 100)` evaluated in IEEE binary64 arithmetic —
which can be one less than the exact `round(100 * synced / total)`, e.g. 57
instead of 58 at `synced = 23, total = 40` — with `syncPercentage = 0` when
`total = 0`, and always a nonnegative integer (never NaN or undefined). -/
theorem getSyncStatistics_arithmetic_binary64 (userId : Nat) (now : Int)
    (store : Except Unit (List Booking)) :
    (getSyncStatistics userId now store).unsyncedBookings
        = ((getSyncStatistics userId now store).totalBookings : Int)
          - ((getSyncStatistics userId now store).syncedBookings : Int) ∧
    ((getSyncStatistics userId now store).syncedBookings : Int)
        + (getSyncStatistics userId now store).unsyncedBookings
        = ((getSyncStatistics userId now store).totalBookings : Int) ∧
    (getSyncStatistics userId now store).syncPercentage
        = (if (getSyncStatistics userId now store).totalBookings = 0 then 0
           else jsSyncPercentage (getSyncStatistics userId now store).syncedBookings
                  (getSyncStatistics userId now store).totalBookings) ∧
    0 ≤ (getSyncStatistics userId now store).syncPercentage := by
  cases store with
  | error e =>
    refine ⟨rfl, rfl, ?_, ?_⟩
    · simp [getSyncStatistics]
    · simp [getSyncStatistics]
  | ok db =>
    refine ⟨rfl, ?_, ?_, ?_⟩
    · simp only [getSyncStatistics]
      ring
    · simp only [getSyncStatistics]
      by_cases h : db.countP (fun b => isCountedBooking userId now b) = 0
      · simp [h]
      · have hpos : 0 < db.countP (fun b => isCountedBooking userId now b) :=
          Nat.pos_of_ne_zero h
        simp only [hpos, if_true, h, if_false]
    · simp only [getSyncStatistics]
      by_cases h : db.countP (fun b => isCountedBooking userId now b) = 0
      · simp [h]
      · have hpos : 0 < db.countP (fun b => isCountedBooking userId now b) :=
          Nat.pos_of_ne_zero h
        simp only [hpos, if_true]
        exact jsSyncPercentage_nonneg _ _

/-- C10: when the booking store throws during `getSyncStatistics`, the call
returns the all-zero record with no `lastSyncAt` and no error indication —
exactly the record returned for a user with an empty store — so no consumer
(including the health check's recency and coverage sub-checks) can
distinguish the two. -/
theorem getSyncStatistics_store_failure_indistinguishable (userId : Nat) (now : Int) :
    getSyncStatistics userId now (Except.error ())
        = getSyncStatistics userId now (Except.ok []) ∧
    getSyncStatistics userId now (Except.error ())
        = { totalBookings := 0, syncedBookings := 0, unsyncedBookings := 0
            syncErrors := 0, lastSyncAt := none, syncPercentage := 0 } ∧
    recentSyncActivity now (getSyncStatistics userId now (Except.error ()))
        = recentSyncActivity now (getSyncStatistics userId now (Except.ok [])) ∧
    lowSyncCoverage (getSyncStatistics userId now (Except.error ()))
        = lowSyncCoverage (getSyncStatistics userId now (Except.ok [])) := by
  exact ⟨rfl, rfl, rfl, rfl⟩

/-- C1 counterexample: for the synced booking `syncedBookingE3` (external
event id `evt-3`) with both deletes failing, `removeBookingFromCalendar`
does return failure, but the sync state is NOT left unchanged: the write
clears the external event id. -/
theorem removeBooking_zeroSuccess_counterexample :
    allCallsFailEnv.deleteEvent 1 "evt-3" = false ∧
    allCallsFailEnv.deleteEvent 2 "evt-3" = false ∧
    (removeBookingFromCalendar allCallsFailEnv syncedBookingE3 [1, 2]).success = false ∧
    applyWrites syncedBookingE3
        (removeBookingFromCalendar allCallsFailEnv syncedBookingE3 [1, 2]).writes 900
      ≠ syncedBookingE3 ∧
    (applyWrites syncedBookingE3
        (removeBookingFromCalendar allCallsFailEnv syncedBookingE3 [1, 2]).writes
        900).google_calendar_event_id = none := by
  refine ⟨rfl, rfl, rfl, ?_, rfl⟩
  decide

/-- C1 amended: when every fanned-out delete fails, the overall result is
failure, but the booking's sync state is nonetheless cleared — the code
writes `(null, false, now)` unconditionally before inspecting the delete
results. -/
theorem removeBooking_zeroSuccess_clears_state
    (env : CalendarEnv) (b : Booking) (users : List Nat) (now : Int) (e : EventId)
    (heid : b.google_calendar_event_id = some e)
    (hfail : ∀ u ∈ users, env.deleteEvent u e = false) :
    (removeBookingFromCalendar env b users).success = false ∧
    applyWrites b (removeBookingFromCalendar env b users).writes now
      = { b with google_calendar_event_id := none
                 google_calendar_synced := false
                 last_sync_at := some now } := by
  constructor
  · simp only [removeBookingFromCalendar, heid]
    rw [List.any_eq_false]
    intro x hx
    rcases List.mem_map.1 hx with ⟨u, hu, rfl⟩
    simp [hfail u hu]
  · simp [removeBookingFromCalendar, heid, applyWrites, updateBookingSyncData]

/-- Witness for the amended C1 at a concrete input. -/
theorem removeBooking_zeroSuccess_clears_state_witness :
    (removeBookingFromCalendar allCallsFailEnv syncedBookingE3 [1, 2]).success = false ∧
    applyWrites syncedBookingE3
        (removeBookingFromCalendar allCallsFailEnv syncedBookingE3 [1, 2]).writes 900
      = { syncedBookingE3 with
            google_calendar_event_id := none
            google_calendar_synced := false
            last_sync_at := some 900 } :=
  removeBooking_zeroSuccess_clears_state allCallsFailEnv syncedBookingE3 [1, 2] 900
    "evt-3" rfl (by decide)

/-- C3 counterexample: `cancelledUnsyncedBooking` belongs to user 1, is
cancelled and carries a non-null external event id, yet `intelligentSync`'s
delete phase skips it, because `getCancelledSyncedBookings` additionally
requires `google_calendar_synced: true`. -/
theorem intelligentSync_delete_phase_counterexample :
    belongsToUser 1 cancelledUnsyncedBooking = true ∧
    cancelledUnsyncedBooking.status = BookingStatus.cancelado ∧
    cancelledUnsyncedBooking.google_calendar_event_id.isSome = true ∧
    ({ ty := ActionType.deleteAction, bookingId := cancelledUnsyncedBooking.id } :
        PlannedAction) ∉ intelligentSyncPlan 1 0 [cancelledUnsyncedBooking] := by
  refine ⟨rfl, rfl, rfl, ?_⟩
  decide

/-- C3 amended: every booking of the user whose status is Cancelled or
Rejected, whose external event id is non-null AND which is marked synced
(`google_calendar_synced = true`) appears in the delete phase of the
`intelligentSync` action log. -/
theorem intelligentSync_delete_phase_covers_synced
    (userId : Nat) (now : Int) (db : List Booking) (b : Booking)
    (hmem : b ∈ db) (huser : belongsToUser userId b = true)
    (hst : b.status = BookingStatus.cancelado ∨ b.status = BookingStatus.rejeitado)
    (heid : b.google_calendar_event_id.isSome = true)
    (hsync : b.google_calendar_synced = true) :
    ({ ty := ActionType.deleteAction, bookingId := b.id } : PlannedAction)
      ∈ intelligentSyncPlan userId now db := by
  have hb : isCancelledSyncedBooking userId b = true := by
    unfold isCancelledSyncedBooking
    rcases hst with h | h <;> simp [heid, hsync, huser, h]
  unfold intelligentSyncPlan
  refine List.mem_append.2 (Or.inr ?_)
  exact List.mem_map.2 ⟨b, List.mem_filter.2 ⟨hmem, hb⟩, rfl⟩

/-- Witness for the amended C3 at a concrete input. -/
theorem intelligentSync_delete_phase_covers_synced_witness :
    ({ ty := ActionType.deleteAction, bookingId := 7 } : PlannedAction)
      ∈ intelligentSyncPlan 1 0 [cancelledSyncedBooking] :=
  intelligentSync_delete_phase_covers_synced 1 0 [cancelledSyncedBooking]
    cancelledSyncedBooking (by decide) (by decide) (Or.inl rfl) (by decide) (by decide)

/-- Each `updateBookingSyncData` write overwrites all three sync fields, so
only the last write of a call determines the resulting sync state. -/
theorem applyWrites_append_last (b : Booking) (ws : List SyncWrite) (w : SyncWrite)
    (now : Int) :
    applyWrites b (ws ++ [w]) now = updateBookingSyncData b w now := by
  induction ws generalizing b with
  | nil => rfl
  | cons w0 rest ih =>
    show applyWrites (updateBookingSyncData b w0 now) (rest ++ [w]) now = _
    rw [ih]
    rfl

/-- In the create path, the head of the success-filtered per-target results
is the first successful create, as located by `findSome?` over the targets. -/
theorem createResults_head_findSome (env : CalendarEnv) (b : Booking)
    (hb : b.google_calendar_event_id = none) (users : List Nat) :
    ((users.map (targetSyncResult env b)).filter (fun r => r.success)).head?
      = (users.findSome? env.createEvent).map
          (fun i => ({ success := true, eventId := some i } : SyncResponse)) := by
  induction users with
  | nil => rfl
  | cons u rest ih =>
    rw [List.map_cons, List.findSome?_cons]
    cases hcu : env.createEvent u with
    | some i => simp [targetSyncResult, hb, hcu, List.filter_cons]
    | none => simp [targetSyncResult, hb, hcu, List.filter_cons, ih]

/-- A successful per-target result always carries an event id: a successful
create returns the created id, a successful update returns the id it was
given. -/
theorem targetSyncResult_success_isSome (env : CalendarEnv) (b : Booking) (u : Nat)
    (h : (targetSyncResult env b u).success = true) :
    (targetSyncResult env b u).eventId.isSome = true := by
  cases hb : b.google_calendar_event_id with
  | some e =>
    simp only [targetSyncResult, hb] at h ⊢
    simp [h]
  | none =>
    cases hc : env.createEvent u with
    | some i => simp [targetSyncResult, hb, hc]
    | none => simp [targetSyncResult, hb, hc] at h

/-- Full characterization of `syncBookingToCalendar` in the create path
(syncable booking, no stored event id, non-empty target list), indexed by
the first successful create among the targets. -/
theorem syncBooking_create_characterization
    (env : CalendarEnv) (b : Booking) (users : List Nat)
    (hc : canSyncBooking b = true) (hb : b.google_calendar_event_id = none)
    (hne : users ≠ []) :
    syncBookingToCalendar env b users
      = match users.findSome? env.createEvent with
        | some i =>
          { success := true
            eventId := some i
            calls := users.map (fun u => CalendarCall.createCall u)
            writes := users.filterMap (inLoopWrite env b)
                        ++ [{ eid := some i, synced := true }] }
        | none =>
          { success := false
            eventId := none
            calls := users.map (fun u => CalendarCall.createCall u)
            writes := [] } := by
  have hemp : users.isEmpty = false := by
    cases users with
    | nil => exact absurd rfl hne
    | cons a l => rfl
  unfold syncBookingToCalendar
  rw [hc, hemp]
  simp only [Bool.not_true, Bool.false_eq_true, if_false]
  rw [createResults_head_findSome env b hb users]
  cases hfs : users.findSome? env.createEvent with
  | some i =>
    simp only [Option.map_some, hb]
    rfl
  | none =>
    have hlw : users.filterMap (inLoopWrite env b) = [] := by
      rw [List.filterMap_eq_nil_iff]
      intro u hu
      have hcu : env.createEvent u = none :=
        List.findSome?_eq_none_iff.1 hfs u hu
      simp [inLoopWrite, hb, hcu]
    rw [hlw]
    simp only [hb]
    rfl

/-- Characterization of `syncBookingToCalendar` in the update path (stored
event id present): every per-target call is an update on the stored id, and
the call writes either nothing (all updates failed) or the pair
`(stored id, true)`. -/
theorem syncBooking_update_characterization
    (env : CalendarEnv) (b : Booking) (users : List Nat) (e : EventId)
    (hc : canSyncBooking b = true) (hb : b.google_calendar_event_id = some e)
    (hne : users ≠ []) :
    (syncBookingToCalendar env b users).calls
        = users.map (fun u => CalendarCall.updateCall u e) ∧
    ((syncBookingToCalendar env b users).writes = []
      ∨ (syncBookingToCalendar env b users).writes
          = [{ eid := some e, synced := true }]) := by
  have hemp : users.isEmpty = false := by
    cases users with
    | nil => exact absurd rfl hne
    | cons a l => rfl
  have hlw : users.filterMap (inLoopWrite env b) = [] := by
    rw [List.filterMap_eq_nil_iff]
    intro u hu
    simp [inLoopWrite, hb]
  unfold syncBookingToCalendar
  rw [hc, hemp]
  simp only [Bool.not_true, Bool.false_eq_true, if_false]
  cases hh : ((users.map (targetSyncResult env b)).filter (fun r => r.success)).head? with
  | none =>
    constructor
    · simp only [hb]
    · exact Or.inl hlw
  | some r0 =>
    have hr0 : r0 ∈ (users.map (targetSyncResult env b)).filter (fun r => r.success) :=
      List.mem_of_mem_head? (by rw [hh]; rfl)
    rcases List.mem_filter.1 hr0 with ⟨hr0m, hr0s⟩
    rcases List.mem_map.1 hr0m with ⟨u, hu, hru⟩
    have heid : r0.eventId = some e := by
      rw [← hru] at hr0s ⊢
      simp only [targetSyncResult, hb] at hr0s ⊢
      simp [hr0s]
    constructor
    · simp only [hb]
    · refine Or.inr ?_
      show users.filterMap (inLoopWrite env b)
          ++ [{ eid := r0.eventId.orElse (fun _ => b.google_calendar_event_id)
                synced := true }] = _
      rw [hlw, heid, hb]
      rfl

/-- C2: on a syncable booking with no stored external id and a non-empty
target list, the event id persisted at the end of the call is the id
returned by the first target whose create succeeded (first-writer-wins), and
remains unset when every create fails; the call reports success exactly when
some create succeeded. -/
theorem syncBooking_firstWriterWins
    (env : CalendarEnv) (b : Booking) (users : List Nat) (now : Int)
    (hc : canSyncBooking b = true) (hb : b.google_calendar_event_id = none)
    (hne : users ≠ []) :
    (applyWrites b (syncBookingToCalendar env b users).writes now).google_calendar_event_id
        = users.findSome? env.createEvent ∧
    (syncBookingToCalendar env b users).success
        = (users.findSome? env.createEvent).isSome := by
  rw [syncBooking_create_characterization env b users hc hb hne]
  cases hfs : users.findSome? env.createEvent with
  | some i =>
    refine ⟨?_, rfl⟩
    rw [applyWrites_append_last]
    rfl
  | none =>
    exact ⟨hb, rfl⟩

/-- Witness for C2 at a concrete input: target 1's create fails, target 2's
create succeeds with id `evt-b`, which is the id persisted at the end. -/
theorem syncBooking_firstWriterWins_witness :
    (applyWrites unsyncedBookingA
        (syncBookingToCalendar createEnv2 unsyncedBookingA [1, 2]).writes
        100).google_calendar_event_id
      = [1, 2].findSome? createEnv2.createEvent ∧
    (syncBookingToCalendar createEnv2 unsyncedBookingA [1, 2]).success
      = ([1, 2].findSome? createEnv2.createEvent).isSome :=
  syncBooking_firstWriterWins createEnv2 unsyncedBookingA [1, 2] 100
    (by decide) rfl (by decide)

/-- C5: reconcile is idempotent in effect — after a first call on a syncable,
never-synced booking succeeds in creating the external event, a second call
on the resulting booking leaves the external event id unchanged and issues
an update call (never a create call) for every target. -/
theorem syncBooking_idempotent
    (env : CalendarEnv) (b : Booking) (users : List Nat) (now1 now2 : Int)
    (hc : canSyncBooking b = true) (hb : b.google_calendar_event_id = none)
    (hne : users ≠ [])
    (hsucc : (syncBookingToCalendar env b users).success = true) :
    ∃ e : EventId,
      (applyWrites b (syncBookingToCalendar env b users).writes
          now1).google_calendar_event_id = some e ∧
      (applyWrites (applyWrites b (syncBookingToCalendar env b users).writes now1)
          (syncBookingToCalendar env
            (applyWrites b (syncBookingToCalendar env b users).writes now1) users).writes
          now2).google_calendar_event_id = some e ∧
      (syncBookingToCalendar env
          (applyWrites b (syncBookingToCalendar env b users).writes now1) users).calls
        = users.map (fun u => CalendarCall.updateCall u e) ∧
      ∀ c ∈ (syncBookingToCalendar env
          (applyWrites b (syncBookingToCalendar env b users).writes now1) users).calls,
        ∀ u : Nat, c ≠ CalendarCall.createCall u := by
  have hchar := syncBooking_create_characterization env b users hc hb hne
  cases hfs : users.findSome? env.createEvent with
  | none =>
    rw [hchar, hfs] at hsucc
    exact absurd hsucc (by simp)
  | some i =>
    rw [hfs] at hchar
    refine ⟨i, ?_⟩
    have hb1 : applyWrites b (syncBookingToCalendar env b users).writes now1
        = { b with google_calendar_event_id := some i
                   google_calendar_synced := true
                   last_sync_at := some now1 } := by
      rw [hchar]
      rw [applyWrites_append_last]
      rfl
    rw [hb1]
    have hc1 : canSyncBooking
        { b with google_calendar_event_id := some i
                 google_calendar_synced := true
                 last_sync_at := some now1 } = true := hc
    have hupd := syncBooking_update_characterization env
      { b with google_calendar_event_id := some i
               google_calendar_synced := true
               last_sync_at := some now1 } users i hc1 rfl hne
    rcases hupd with ⟨hcalls, hwrites⟩
    refine ⟨rfl, ?_, hcalls, ?_⟩
    · rcases hwrites with hw | hw
      · rw [hw]; rfl
      · rw [hw]
        show (updateBookingSyncData _ _ _).google_calendar_event_id = some i
        rfl
    · intro c hcmem u
      rw [hcalls] at hcmem
      rcases List.mem_map.1 hcmem with ⟨v, hv, hvc⟩
      rw [← hvc]
      intro hcontra
      exact CalendarCall.noConfusion hcontra

/-- Witness for C5 at a concrete input. -/
theorem syncBooking_idempotent_witness :
    ∃ e : EventId,
      (applyWrites unsyncedBookingA
          (syncBookingToCalendar createEnv2 unsyncedBookingA [1, 2]).writes
          100).google_calendar_event_id = some e ∧
      (applyWrites
          (applyWrites unsyncedBookingA
            (syncBookingToCalendar createEnv2 unsyncedBookingA [1, 2]).writes 100)
          (syncBookingToCalendar createEnv2
            (applyWrites unsyncedBookingA
              (syncBookingToCalendar createEnv2 unsyncedBookingA [1, 2]).writes 100)
            [1, 2]).writes
          200).google_calendar_event_id = some e ∧
      (syncBookingToCalendar createEnv2
          (applyWrites unsyncedBookingA
            (syncBookingToCalendar createEnv2 unsyncedBookingA [1, 2]).writes 100)
          [1, 2]).calls
        = [1, 2].map (fun u => CalendarCall.updateCall u e) ∧
      ∀ c ∈ (syncBookingToCalendar createEnv2
          (applyWrites unsyncedBookingA
            (syncBookingToCalendar createEnv2 unsyncedBookingA [1, 2]).writes 100)
          [1, 2]).calls,
        ∀ u : Nat, c ≠ CalendarCall.createCall u :=
  syncBooking_idempotent createEnv2 unsyncedBookingA [1, 2] 100 200
    (by decide) rfl (by decide) (by decide)

/-- C9: every sync-field write issued by reconcile or remove (and hence by
`intelligentSync`, which only writes through them) preserves the invariant
that a booking marked synced carries a non-null external event id. -/
theorem inLoopWrite_eid_isSome (env : CalendarEnv) (b : Booking) (u : Nat) (w : SyncWrite)
    (h : inLoopWrite env b u = some w) : w.eid.isSome = true := by
  cases hbe : b.google_calendar_event_id with
  | some e => simp [inLoopWrite, hbe] at h
  | none =>
    cases hcu : env.createEvent u with
    | some i =>
      have hwv : ({ eid := some i, synced := true } : SyncWrite) = w := by
        simpa [inLoopWrite, hbe, hcu] using h
      rw [← hwv]
      rfl
    | none => simp [inLoopWrite, hbe, hcu] at h

/-- The write list of a `removeBookingFromCalendar` call is either empty
(no stored event id) or the single clearing write. -/
theorem removeWrites_cases (env : CalendarEnv) (b : Booking) (users : List Nat) :
    (removeBookingFromCalendar env b users).writes = []
    ∨ (removeBookingFromCalendar env b users).writes
        = [{ eid := none, synced := false }] := by
  unfold removeBookingFromCalendar
  cases b.google_calendar_event_id with
  | none => exact Or.inl rfl
  | some e => exact Or.inr rfl

theorem syncWrites_preserve_invariant
    (env : CalendarEnv) (b : Booking) (users : List Nat) (w : SyncWrite)
    (hw : w ∈ (syncBookingToCalendar env b users).writes
          ∨ w ∈ (removeBookingFromCalendar env b users).writes)
    (hs : w.synced = true) :
    w.eid.isSome = true := by
  rcases hw with hw | hw
  · unfold syncBookingToCalendar at hw
    cases hcb : canSyncBooking b with
    | false => simp [hcb] at hw
    | true =>
    cases hemp : users.isEmpty with
    | true => simp [hcb, hemp] at hw
    | false =>
    simp only [hcb, hemp, Bool.not_true, Bool.false_eq_true, if_false] at hw
    cases hh : ((users.map (targetSyncResult env b)).filter (fun r => r.success)).head? with
    | none =>
      rw [hh] at hw
      have hw2 : w ∈ users.filterMap (inLoopWrite env b) := hw
      rcases List.mem_filterMap.1 hw2 with ⟨u, hu, hiw⟩
      exact inLoopWrite_eid_isSome env b u w hiw
    | some r0 =>
      rw [hh] at hw
      have hw2 : w ∈ users.filterMap (inLoopWrite env b)
          ++ [({ eid := r0.eventId.orElse (fun _ => b.google_calendar_event_id)
                 synced := true } : SyncWrite)] := hw
      rcases List.mem_append.1 hw2 with hw3 | hw3
      · rcases List.mem_filterMap.1 hw3 with ⟨u, hu, hiw⟩
        exact inLoopWrite_eid_isSome env b u w hiw
      · have hwe : w = { eid := r0.eventId.orElse (fun _ => b.google_calendar_event_id)
                         synced := true } := List.mem_singleton.1 hw3
        have hr0 : r0 ∈ (users.map (targetSyncResult env b)).filter (fun r => r.success) :=
          List.mem_of_mem_head? (by rw [hh]; rfl)
        rcases List.mem_filter.1 hr0 with ⟨hr0m, hr0s⟩
        rcases List.mem_map.1 hr0m with ⟨u, hu, hru⟩
        have hsome : r0.eventId.isSome = true := by
          rw [← hru]
          exact targetSyncResult_success_isSome env b u (by rw [hru]; exact hr0s)
        rw [hwe]
        cases hre : r0.eventId with
        | some x => rfl
        | none => rw [hre] at hsome; exact absurd hsome (by simp)
  · rcases removeWrites_cases env b users with hcase | hcase
    · rw [hcase] at hw
      exact absurd hw (by simp)
    · rw [hcase] at hw
      have hwe : w = { eid := none, synced := false } := List.mem_singleton.1 hw
      rw [hwe] at hs
      exact absurd hs (by simp)

/-- Witness for C9 at a concrete input: the in-loop write of the successful
create for target 2. -/
theorem syncWrites_preserve_invariant_witness :
    (({ eid := some "evt-b", synced := true } : SyncWrite)).eid.isSome = true :=
  syncWrites_preserve_invariant createEnv2 unsyncedBookingA [1, 2]
    { eid := some "evt-b", synced := true } (Or.inl (by decide)) (by decide)

end TocaAqui
